/-
Verification of the audio2mqtt fingerprinting core against its specification.

The Python sources under src/fingerprinting (memory_db.py, postgres_db.py,
metadata_db.py, engine.py, recognizer.py) and src/import_fingerprint_files.py
are shallowly embedded below: stateful classes become explicit state records,
methods become state-passing functions, Python dicts become association lists
with Python's insertion-order and last-write-wins semantics, and code paths
that raise become Except values.  Machine floats are modelled as rationals
(reals where a logarithm is required); integer offsets are modelled as Int.
-/
import Mathlib

/-! ## Fingerprint store: the in-memory backing (src/fingerprinting/memory_db.py)

A hash is an opaque key compared only for equality; we model it as Nat.
Time offsets are Int (offset differences may be negative). -/

/-- One row of the in-memory `songs` dict: `{song_name, file_sha1, fingerprinted}`
(memory_db.py line 17). -/
structure Song where
  song_name : String
  file_sha1 : String
  fingerprinted : Bool
deriving DecidableEq, Repr

/-- The `MemoryDatabase` state (memory_db.py lines 15-19): `songs` is a dict
`song_id -> Song` kept in insertion order, `fingerprints` a plain list of
`(hash, song_id, offset)` triples, `next_song_id` the id counter. -/
structure MemoryDatabase where
  songs : List (Nat × Song)
  fingerprints : List (Nat × Nat × Int)
  next_song_id : Nat
deriving DecidableEq, Repr

/-- A fresh `MemoryDatabase()` (memory_db.py `__init__`). -/
def MemoryDatabase.init : MemoryDatabase :=
  { songs := [], fingerprints := [], next_song_id := 1 }

/-- `MemoryDatabase.empty` (memory_db.py lines 25-29). -/
def MemoryDatabase.empty (_db : MemoryDatabase) : MemoryDatabase :=
  MemoryDatabase.init

/-- `MemoryDatabase.insert(hash, sid, offset)` (memory_db.py lines 84-86):
appends unconditionally. -/
def MemoryDatabase.insert (db : MemoryDatabase) (h sid : Nat) (offset : Int) :
    MemoryDatabase :=
  { db with fingerprints := db.fingerprints ++ [(h, sid, offset)] }

/-- `MemoryDatabase.insert_song(song_name, file_hash)` (memory_db.py lines
88-97): allocates `next_song_id`, stores the row with `fingerprinted=False`,
returns the id. -/
def MemoryDatabase.insert_song (db : MemoryDatabase) (song_name file_hash : String) :
    Nat × MemoryDatabase :=
  let sid := db.next_song_id
  (sid, { db with
            songs := db.songs ++ [(sid, ⟨song_name, file_hash, false⟩)],
            next_song_id := db.next_song_id + 1 })

/-- `MemoryDatabase.set_song_fingerprinted(sid)` (memory_db.py lines 58-61). -/
def MemoryDatabase.set_song_fingerprinted (db : MemoryDatabase) (sid : Nat) :
    MemoryDatabase :=
  { db with songs := db.songs.map fun p =>
      if p.1 = sid then (p.1, { p.2 with fingerprinted := true }) else p }

/-- `MemoryDatabase.get_num_songs` (memory_db.py lines 39-41): counts only
fingerprinted songs. -/
def MemoryDatabase.get_num_songs (db : MemoryDatabase) : Nat :=
  (db.songs.filter fun p => p.2.fingerprinted).length

/-- `MemoryDatabase.get_num_fingerprints` (memory_db.py lines 43-45). -/
def MemoryDatabase.get_num_fingerprints (db : MemoryDatabase) : Nat :=
  db.fingerprints.length

/-- Lookup in a Python dict built by a comprehension `{h: offset for h, offset
in hashes}`: a duplicated key keeps the LAST pair's value. -/
def pyDictLookup (l : List (Nat × Int)) (k : Nat) : Option Int :=
  l.reverse.lookup k

/-- `MemoryDatabase.return_matches(hashes)` (memory_db.py lines 124-133):
builds `hash_dict` from the query pairs, then for every stored posting whose
hash is a key of the dict yields `(sid, db_offset - hash_dict[hash])`, i.e.
reference offset minus query offset. -/
def MemoryDatabase.return_matches (db : MemoryDatabase) (hashes : List (Nat × Int)) :
    List (Nat × Int) :=
  db.fingerprints.filterMap fun t =>
    (pyDictLookup hashes t.1).map fun qoff => (t.2.1, t.2.2 - qoff)

/-! ## Fingerprint store: the PostgreSQL backing (src/fingerprinting/postgres_db.py)

The relational state is a list of song rows and a list of posting rows; the
SQL statements of postgres_db.py become state transformers faithful to their
text: `INSERT ... ON CONFLICT (song_id, offset, hash) DO NOTHING` skips a row
that already exists (the UNIQUE constraint of CREATE_FINGERPRINTS_TABLE), and
the songs table of CREATE_SONGS_TABLE carries a UNIQUE constraint on song_id
only — song_name is merely NOT NULL. -/

/-- One row of the `songs` table (postgres_db.py CREATE_SONGS_TABLE, lines
30-38): `song_id SERIAL PRIMARY KEY, song_name NOT NULL, fingerprinted,
file_sha1`. -/
structure PGSongRow where
  song_id : Nat
  song_name : String
  fingerprinted : Bool
  file_sha1 : String
deriving DecidableEq, Repr

/-- The PostgreSQL fingerprint store state: `songs` rows plus `fingerprints`
rows `(hash, song_id, offset)`, and the SERIAL counter for song_id. -/
structure PGState where
  songs : List PGSongRow
  fingerprints : List (Nat × Nat × Int)
  serial : Nat
deriving DecidableEq, Repr

/-- `INSERT_FINGERPRINT` (postgres_db.py lines 57-61): insert the posting
unless the UNIQUE `(song_id, offset, hash)` triple already exists — `ON
CONFLICT DO NOTHING`. -/
def PGState.insert (st : PGState) (h sid : Nat) (offset : Int) : PGState :=
  if (h, sid, offset) ∈ st.fingerprints then st
  else { st with fingerprints := st.fingerprints ++ [(h, sid, offset)] }

/-- `INSERT_SONG` (postgres_db.py lines 63-67): appends a row with a fresh
SERIAL id and `fingerprinted` defaulted to 0; no constraint guards
`song_name`. -/
def PGState.insert_song (st : PGState) (song_name file_hash : String) :
    Nat × PGState :=
  let sid := st.serial
  (sid, { st with
            songs := st.songs ++ [⟨sid, song_name, false, file_hash⟩],
            serial := st.serial + 1 })

/-- `PostgreSQLDatabase.return_matches(hashes)` (postgres_db.py lines
241-289): on an empty query return `[]` at once; otherwise select every
posting whose hash occurs among the query hashes and, when the hash is a key
of `hash_dict`, append `(song_id, query_offset - db_offset)` — note the sign:
query offset minus reference offset. -/
def PGState.return_matches (st : PGState) (hashes : List (Nat × Int)) :
    List (Nat × Int) :=
  if hashes = [] then []
  else
    st.fingerprints.filterMap fun t =>
      (pyDictLookup hashes t.1).map fun qoff => (t.2.1, qoff - t.2.2)

/-! ## Python values and float() coercion

The recognizer's debounce check reads `debounce_seconds` out of a schemaless
JSON metadata document and runs it through Python's `float()` inside a
`try/except (ValueError, TypeError)` (recognizer.py lines 184-192).  We model
the relevant universe of Python values and `float()` as a total function into
`Option` — `none` standing for the raised `ValueError`/`TypeError`. -/

/-- A Python value as it can appear in a metadata document: `None`, a bool,
an int, a float, a string, or any other object (list, dict, ...). -/
inductive PyVal where
  | pynone
  | pybool (b : Bool)
  | pyint (n : Int)
  | pyfloat (q : ℚ)
  | pystr (s : String)
  | pyobj
deriving DecidableEq, Repr

/-- Decimal value of a run of digit characters. -/
def digitsVal (cs : List Char) : Nat :=
  cs.foldl (fun n c => 10 * n + (c.toNat - 48)) 0

/-- Parse an unsigned decimal numeral, optionally with a fractional part
(the core of Python's `float(str)` grammar). -/
def parseFloatCore (cs : List Char) : Option ℚ :=
  let intPart := cs.takeWhile Char.isDigit
  let rest := cs.dropWhile Char.isDigit
  if rest = [] then
    if intPart = [] then none else some (digitsVal intPart)
  else if rest.head? = some '.' then
    let fracCs := rest.tail
    if fracCs.all Char.isDigit && (!intPart.isEmpty || !fracCs.isEmpty) then
      some ((digitsVal intPart : ℚ) + (digitsVal fracCs : ℚ) / 10 ^ fracCs.length)
    else none
  else none

/-- Python `float(str)`: strip whitespace, optional sign, decimal numeral;
anything else raises `ValueError` (modelled as `none`). -/
def parseFloat? (s : String) : Option ℚ :=
  match s.trim.data with
  | [] => none
  | c :: cs =>
    if c = '-' then (parseFloatCore cs).map Neg.neg
    else if c = '+' then parseFloatCore cs
    else parseFloatCore (c :: cs)

/-- Python `float(v)` on a metadata value: bools coerce to 0/1, ints and
floats pass through, strings are parsed, `None` and arbitrary objects raise
`TypeError` (modelled as `none`). -/
def pyFloat (v : PyVal) : Option ℚ :=
  match v with
  | .pynone => none
  | .pybool b => some (if b then 1 else 0)
  | .pyint n => some (n : ℚ)
  | .pyfloat q => some q
  | .pystr s => parseFloat? s
  | .pyobj => none

/-! ## Metadata store (src/fingerprinting/metadata_db.py, memory/SQLite backing)

The `song_metadata` table is keyed by `song_name` (PRIMARY KEY); insert is
`INSERT OR REPLACE`, i.e. an upsert. -/

/-- One `song_metadata` row minus the timestamp column. -/
structure MetaRow where
  metadata : List (String × PyVal)
  source_file : String
deriving DecidableEq, Repr

/-- The metadata table state: rows keyed by `song_name`, keys unique. -/
abbrev MetaState := List (String × MetaRow)

/-- `MetadataDB.insert_metadata` (metadata_db.py lines 128-180, SQLite branch):
`INSERT OR REPLACE` keyed on `song_name`. -/
def upsertMeta (st : MetaState) (song_name : String) (row : MetaRow) : MetaState :=
  st.filter (fun p => p.1 ≠ song_name) ++ [(song_name, row)]

/-- `MetadataDB.get_metadata(song_name)` (metadata_db.py lines 182-223). -/
def getMeta (st : MetaState) (song_name : String) : Option MetaRow :=
  st.lookup song_name

/-- `MetadataDB.clear_all_metadata` (metadata_db.py lines 368-374):
`DELETE FROM song_metadata`. -/
def clearAllMetadata (_st : MetaState) : MetaState := []

/-- `MetadataDB.count_metadata` (metadata_db.py lines 376-386). -/
def countMetadata (st : MetaState) : Nat := st.length

/-! ## Recognizer debounce (src/fingerprinting/recognizer.py lines 167-211) -/

/-- A detection dict as built by `StreamRecognizer.process_chunk` (recognizer.py
lines 128-137); fields not consulted by any claim are omitted. -/
structure Detection where
  className : String
  confidence : ℚ
  song_name : String
  offset : ℚ
  hashes_matched : Nat
  metadata : List (String × PyVal)
deriving DecidableEq, Repr

/-- The effective debounce duration of `_should_publish_to_mqtt` (recognizer.py
lines 184-192): `metadata.get` with the global default, then
`max(0.0, float(...))` under `try`, falling back to the raw global on
`ValueError`/`TypeError`. -/
def effectiveDebounce (globalDebounce : ℚ) (metadata : List (String × PyVal)) : ℚ :=
  let raw := (metadata.lookup "debounce_seconds").getD (.pyfloat globalDebounce)
  match pyFloat raw with
  | some q => max 0 q
  | none => globalDebounce

/-- Python dict assignment `d[k] = v`: replace in place, else append. -/
def dictSet (l : List (String × ℚ)) (k : String) (v : ℚ) : List (String × ℚ) :=
  if l.any (fun p => p.1 = k) then
    l.map (fun p => if p.1 = k then (k, v) else p)
  else l ++ [(k, v)]

/-- The recognizer's MQTT debounce state: `last_event_time` dict and
`last_published_song` (recognizer.py lines 55-56). -/
structure MQTTState where
  last_event_time : List (String × ℚ)
  last_published_song : Option String
deriving DecidableEq, Repr

/-- Fresh debounce state. -/
def MQTTState.init : MQTTState := { last_event_time := [], last_published_song := none }

/-- `StreamRecognizer._should_publish_to_mqtt` (recognizer.py lines 167-211):
a different song than the last published one always publishes and resets the
timer; the same song publishes only when `now - last_event_time[song]` has
reached the effective debounce.  Returns the decision and the updated state
(the human-readable skip reason of the source is presentation only and
elided). -/
def shouldPublish (globalDebounce now : ℚ) (det : Detection) (st : MQTTState) :
    Bool × MQTTState :=
  let song := det.song_name
  let d := effectiveDebounce globalDebounce det.metadata
  if st.last_published_song ≠ some song then
    (true, { last_published_song := some song,
             last_event_time := dictSet st.last_event_time song now })
  else
    let last := (st.last_event_time.lookup song).getD 0
    if now - last ≥ d then
      (true, { last_published_song := some song,
               last_event_time := dictSet st.last_event_time song now })
    else (false, st)

/-- Drive `shouldPublish` over a timed sequence of detections, returning the
emitted `(time, song_name)` events in order (the publish loop of
`start_listening`, recognizer.py lines 332-344). -/
def runPublishes (globalDebounce : ℚ) (events : List (ℚ × Detection)) (st : MQTTState) :
    List (ℚ × String) :=
  match events with
  | [] => []
  | (t, d) :: rest =>
    let r := shouldPublish globalDebounce t d st
    if r.1 then (t, d.song_name) :: runPublishes globalDebounce rest r.2
    else runPublishes globalDebounce rest r.2

/-! ## Engine match result (src/fingerprinting/engine.py lines 154-193)

`FingerprintEngine.recognize_file` wraps the external Dejavu recognizer; the
Dejavu result (a song name, the matched-hash count that Dejavu itself labels
`confidence`, and an offset in seconds) is the input of the embedding and the
engine's post-processing of it is embedded faithfully.  The key line is
engine.py 178: the raw matched-hash count is used directly as `confidence`. -/

/-- What `self.dejavu.recognize` returns when a match exists: `song_name`,
`confidence` (the integer count of matched hashes) and `offset_seconds`. -/
structure DejavuResult where
  song_name : String
  confidence : Nat
  offset_seconds : ℚ
deriving DecidableEq, Repr

/-- The match dict built by `FingerprintEngine.recognize_file` (engine.py
lines 175-191). -/
structure EngineMatch where
  className : String
  song_name : String
  confidence : ℚ
  offset : ℚ
  hashes_matched_in_input : Nat
  metadata : List (String × PyVal)
deriving DecidableEq, Repr

/-- Class-name extraction of engine.py line 169:
`song_name.split('_')[0] if '_' in song_name else song_name` — the first
split component is the prefix up to the first underscore. -/
def classOf (s : String) : String :=
  if '_' ∈ s.data then String.mk (s.data.takeWhile fun c => c ≠ '_') else s

/-- `FingerprintEngine.recognize_file` post-processing (engine.py lines
164-193): on a Dejavu result, build the match dict with
`confidence = matched_hashes` (the RAW count, engine.py line 178) and attach
the metadata document when one exists. -/
def recognizeResult (meta : MetaState) (r : Option DejavuResult) : Option EngineMatch :=
  r.map fun m =>
    { className := classOf m.song_name,
      song_name := m.song_name,
      confidence := (m.confidence : ℚ),
      offset := m.offset_seconds,
      hashes_matched_in_input := m.confidence,
      metadata := ((getMeta meta m.song_name).map (fun row => row.metadata)).getD [] }

/-- The normalized confidence the specification (and the `--threshold` help
text of listen.py line 85) prescribes: `min(matched_hashes / 50, 1.0)`.
Modelled from the spec: no function in src computes this value. -/
def specConfidence (score : Nat) : ℚ :=
  min ((score : ℚ) / 50) 1

/-! ## Stream recognizer (src/fingerprinting/recognizer.py lines 17-165) -/

/-- Python `int(...)` on a nonnegative-or-negative rational: truncation toward
zero. -/
def pyInt (q : ℚ) : Int :=
  if 0 ≤ q then ⌊q⌋ else ⌈q⌉

/-- The last `n` elements of a list — the contents of a `deque(maxlen=n)`
after `extend`, and the `[-n:]` slice used for window extraction. -/
def takeLast (n : Nat) (l : List α) : List α :=
  l.drop (l.length - n)

/-- The constructor arguments of `StreamRecognizer.__init__` (recognizer.py
lines 17-43). -/
structure RecognizerConfig where
  sampleRate : Nat
  windowDuration : ℚ
  hopDuration : ℚ
  confidenceThreshold : ℚ
  debounceDuration : ℚ
  energyThresholdDb : ℚ
deriving DecidableEq, Repr

/-- `self.window_size = int(window_duration * sample_rate)` (recognizer.py
line 46). -/
def windowSize (c : RecognizerConfig) : Nat :=
  (pyInt (c.windowDuration * c.sampleRate)).toNat

/-- `self.buffer_size = int((window_duration + hop_duration) * sample_rate)`
(recognizer.py lines 48-49). -/
def bufferSize (c : RecognizerConfig) : Nat :=
  (pyInt ((c.windowDuration + c.hopDuration) * c.sampleRate)).toNat

/-- Mutable state of one `StreamRecognizer` relevant to `process_chunk`:
the ring buffer and the statistics counters (recognizer.py lines 51-63). -/
structure StreamState where
  ringBuffer : List ℚ
  total_chunks : Nat
  processed_chunks : Nat
  skipped_silent_chunks : Nat
  total_detections : Nat
deriving DecidableEq, Repr

/-- A fresh `StreamRecognizer` state. -/
def StreamState.init : StreamState :=
  { ringBuffer := [], total_chunks := 0, processed_chunks := 0,
    skipped_silent_chunks := 0, total_detections := 0 }

/-- `np.mean(audio**2)` over the window samples (0 for an empty window,
matching the `0/0 = 0` convention of ℚ). -/
def rmsSq (w : List ℚ) : ℚ :=
  (w.map fun x => x * x).sum / (w.length : ℚ)

/-- `rms = np.sqrt(np.mean(audio**2))` (recognizer.py line 75). -/
noncomputable def rms (w : List ℚ) : ℝ :=
  Real.sqrt (rmsSq w)

/-- `StreamRecognizer._calculate_energy_db` (recognizer.py lines 65-83):
`20*log10(rms)` when `rms > 1e-10`, else the sentinel `-100.0`. -/
noncomputable def calculateEnergyDb (w : List ℚ) : ℝ :=
  if (1 / 10 ^ 10 : ℝ) < rms w then 20 * Real.logb 10 (rms w) else -100

/-- The energy value the specification prescribes,
`20·log10(max(rms, 1e-10))`.  Modelled from the spec for comparison with
`calculateEnergyDb`. -/
noncomputable def specEnergyDb (w : List ℚ) : ℝ :=
  20 * Real.logb 10 (max (rms w) (1 / 10 ^ 10))

/-- `np.max` of a nonempty array (0 for empty, unreached by the source). -/
def npMax (l : List ℚ) : ℚ :=
  match l with
  | [] => 0
  | x :: xs => xs.foldl max x

/-- `np.min` of a nonempty array (0 for empty, unreached by the source). -/
def npMin (l : List ℚ) : ℚ :=
  match l with
  | [] => 0
  | x :: xs => xs.foldl min x

/-- Window normalization of recognizer.py lines 118-120: divide by the
maximum absolute sample only when the window leaves `[-1, 1]`. -/
def normalizeWindow (w : List ℚ) : List ℚ :=
  if 1 < npMax w ∨ npMin w < -1 then w.map (fun x => x / npMax (w.map abs)) else w

/-- The detection dict built from a match (recognizer.py lines 128-137). -/
def mkDetection (m : EngineMatch) : Detection :=
  { className := m.className,
    confidence := m.confidence,
    song_name := m.song_name,
    offset := m.offset,
    hashes_matched := m.hashes_matched_in_input,
    metadata := m.metadata }

/-- The detection-list construction of recognizer.py lines 126-139: a single
detection exactly when a match exists and its (raw-count) confidence reaches
`confidence_threshold`. -/
def detectionsOfMatch (threshold : ℚ) (m : Option EngineMatch) : List Detection :=
  match m with
  | some mt => if threshold ≤ mt.confidence then [mkDetection mt] else []
  | none => []

/-- The ring buffer after `self.ring_buffer.extend(audio_chunk)`
(recognizer.py line 97): a `deque(maxlen=buffer_size)` keeps the last
`buffer_size` elements, evicting the oldest. -/
def extendBuffer (c : RecognizerConfig) (st : StreamState) (chunk : List ℚ) : List ℚ :=
  takeLast (bufferSize c) (st.ringBuffer ++ chunk)

/-- Result of one `process_chunk` call: the new state, the returned detection
list, and whether the recognition pipeline (`engine.recognize_audio`) was
invoked on the window. -/
structure ChunkResult where
  state : StreamState
  detections : List Detection
  invokedRecognition : Bool
deriving DecidableEq, Repr

open scoped Classical in
/-- `StreamRecognizer.process_chunk` (recognizer.py lines 85-165).  The
engine's `recognize_audio` is the external Dejavu pipeline and enters as the
oracle `recognize`; everything else follows the source line by line: bump
`total_chunks`, extend the ring buffer, return `[]` while the buffer holds
fewer than `window_size` samples, extract the last `window_size` samples,
skip (and count) windows below the energy threshold, normalize, recognize,
and keep the match iff its confidence reaches the threshold. -/
noncomputable def processChunk (c : RecognizerConfig)
    (recognize : List ℚ → Option EngineMatch)
    (st : StreamState) (chunk : List ℚ) : ChunkResult :=
  if (extendBuffer c st chunk).length < windowSize c then
    { state := { st with total_chunks := st.total_chunks + 1,
                         ringBuffer := extendBuffer c st chunk },
      detections := [], invokedRecognition := false }
  else if calculateEnergyDb (takeLast (windowSize c) (extendBuffer c st chunk)) <
      (c.energyThresholdDb : ℝ) then
    { state := { st with total_chunks := st.total_chunks + 1,
                         ringBuffer := extendBuffer c st chunk,
                         skipped_silent_chunks := st.skipped_silent_chunks + 1 },
      detections := [], invokedRecognition := false }
  else
    { state := { st with total_chunks := st.total_chunks + 1,
                         ringBuffer := extendBuffer c st chunk,
                         processed_chunks := st.processed_chunks + 1,
                         total_detections := st.total_detections +
                           (detectionsOfMatch c.confidenceThreshold
                             (recognize (normalizeWindow
                               (takeLast (windowSize c) (extendBuffer c st chunk))))).length },
      detections := detectionsOfMatch c.confidenceThreshold
        (recognize (normalizeWindow (takeLast (windowSize c) (extendBuffer c st chunk)))),
      invokedRecognition := true }

/-! ## Engine library maintenance (src/fingerprinting/engine.py lines 232-291)

`FingerprintEngine.get_songs` flattens the store's `get_songs()` rows to
`{id, name}` pairs, handling the dict rows of the memory backing.
`FingerprintEngine.clear_database` instead iterates the raw rows with
`for song_id, _ in songs:` — on the memory backing each row is a dict with
THREE keys, so the tuple unpacking itself raises `ValueError`, and the memory
backing moreover has no `delete_unfingerprinted_song` method.  We embed the
rows together with their dict key lists to capture CPython's unpacking
semantics. -/

/-- A row yielded by `MemoryDatabase.get_songs` (memory_db.py lines 63-71): a
dict with the keys `song_id`, `song_name`, `file_sha1` in insertion order. -/
structure SongRow where
  keys : List String
  sid : Nat
  name : String
  sha1 : String
deriving DecidableEq, Repr

/-- `MemoryDatabase.get_songs` (memory_db.py lines 63-71): one dict row per
FINGERPRINTED song. -/
def memGetSongRows (db : MemoryDatabase) : List SongRow :=
  (db.songs.filter fun p => p.2.fingerprinted).map fun p =>
    { keys := ["song_id", "song_name", "file_sha1"],
      sid := p.1, name := p.2.song_name, sha1 := p.2.file_sha1 }

/-- CPython tuple unpacking `a, b = row` where `row` is a dict: iterates the
KEYS; succeeds only when there are exactly two. -/
def pyUnpack2 (keys : List String) : Except String (String × String) :=
  match keys with
  | [a, b] => Except.ok (a, b)
  | _ => Except.error "ValueError: too many values to unpack"

/-- The loop `for song_id, _ in songs: db.delete_unfingerprinted_song(song_id)`
of `FingerprintEngine.clear_database` (engine.py lines 286-288) run against
the memory backing: unpacking a three-key dict row raises `ValueError`, and
were a row ever unpacked, `MemoryDatabase` has no method
`delete_unfingerprinted_song`, so an `AttributeError` would follow. -/
def clearLoopMem (db : MemoryDatabase) : List SongRow → Except String MemoryDatabase
  | [] => Except.ok db
  | r :: _ =>
    match pyUnpack2 r.keys with
    | Except.error e => Except.error e
    | Except.ok _ =>
      Except.error "AttributeError: MemoryDatabase object has no attribute delete_unfingerprinted_song"

/-- `FingerprintEngine.clear_database` (engine.py lines 283-291) on the memory
backing: iterate the store's song rows deleting each, then
`clear_all_metadata`.  Any exception propagates to the caller. -/
def clearDatabaseMem (db : MemoryDatabase) (meta : MetaState) :
    Except String (MemoryDatabase × MetaState) :=
  match clearLoopMem db (memGetSongRows db) with
  | Except.error e => Except.error e
  | Except.ok db2 => Except.ok (db2, clearAllMetadata meta)

/-- `FingerprintEngine.get_songs` (engine.py lines 232-250) on the memory
backing: the dict branch yields `{'id': song_id, 'name': song_name}` per
fingerprinted song. -/
def engineGetSongs (db : MemoryDatabase) : List (Nat × String) :=
  (db.songs.filter fun p => p.2.fingerprinted).map fun p => (p.1, p.2.song_name)

/-! ## Fingerprint-file import (src/import_fingerprint_files.py) -/

/-- The JSON fields read by `import_fingerprint_file` (lines 60-64); absent
keys are `none`.  Each fingerprint entry carries `fp.get('hash')` and
`fp.get('offset')`, either possibly missing. -/
structure FingerprintFile where
  song_name : Option String
  source_file : Option String
  metadata : List (String × PyVal)
  file_sha1 : Option String
  fingerprints : List (Option Nat × Option Int)
deriving DecidableEq, Repr

/-- Outcome of one import (the `status` field of the result dict). -/
inductive ImportResult where
  | success (fingerprint_count : Nat)
  | skipped
  | importError (msg : String)
deriving DecidableEq, Repr

/-- Engine-level state touched by the import: the fingerprint store (memory
backing) and the metadata table. -/
structure EngineState where
  db : MemoryDatabase
  meta : MetaState
deriving DecidableEq, Repr

/-- The default content digest `'0' * 40` used when `file_sha1` is missing
(import_fingerprint_files.py line 63). -/
def zeros40 : String := String.mk (List.replicate 40 '0')

/-- The postings actually inserted by the import loop (lines 100-112): every
`{hash, offset}` entry with both fields present, in file order, tagged with
the allocated song id (batching only affects progress printing). -/
def validPostings (fps : List (Option Nat × Option Int)) (sid : Nat) :
    List (Nat × Nat × Int) :=
  fps.filterMap fun fp =>
    match fp.1, fp.2 with
    | some h, some o => some (h, sid, o)
    | _, _ => none

/-- `import_fingerprint_file` (import_fingerprint_files.py lines 45-134)
against the memory backing: reject a missing/empty `song_name` or an empty
fingerprint list; skip when a FINGERPRINTED song of the same name exists
(`engine.get_songs`); otherwise `insert_song` with the file digest (default
forty zeros), insert every complete `{hash, offset}` pair,
`set_song_fingerprinted`, and upsert metadata only when the metadata object
is non-empty (`if metadata:`). -/
def importFingerprintFile (data : FingerprintFile) (st : EngineState) :
    ImportResult × EngineState :=
  match data.song_name with
  | none => (ImportResult.importError "Missing song_name in JSON", st)
  | some n =>
    if n = "" then (ImportResult.importError "Missing song_name in JSON", st)
    else if data.fingerprints = [] then
      (ImportResult.importError "No fingerprints in JSON", st)
    else if (engineGetSongs st.db).any (fun p => p.2 = n) then
      (ImportResult.skipped, st)
    else
      let sha := data.file_sha1.getD zeros40
      let r := st.db.insert_song n sha
      let sid := r.1
      let db1 := (validPostings data.fingerprints sid).foldl
        (fun d t => d.insert t.1 t.2.1 t.2.2) r.2
      let db2 := db1.set_song_fingerprinted sid
      let meta2 :=
        if data.metadata = [] then st.meta
        else upsertMeta st.meta n ⟨data.metadata, data.source_file.getD ""⟩
      (ImportResult.success data.fingerprints.length, { db := db2, meta := meta2 })

/-- The per-file call of `main` (import_fingerprint_files.py lines 253-257):
`import_fingerprint_file(json_file, engine)`.  The parsed `--force` flag
(lines 197-201, help text: "not yet implemented") is NOT passed down and has
no effect. -/
def mainProcessFile (_force : Bool) (data : FingerprintFile) (st : EngineState) :
    ImportResult × EngineState :=
  importFingerprintFile data st

/-! ## Claims -/

/-- C2, counterexample: with one stored posting `(hash 7, reference 1,
offset 5)` and the single query pair `(7, 2)`, the memory backing returns
offset difference `5 - 2 = 3` (reference minus query) while the PostgreSQL
backing returns `2 - 5 = -3` (query minus reference): the two backings do NOT
share the sign convention the claim asserts. -/
theorem c2_sign_convention_counterexample :
    MemoryDatabase.return_matches ⟨[], [(7, 1, 5)], 2⟩ [(7, 2)] = [(1, 3)] ∧
    PGState.return_matches ⟨[], [(7, 1, 5)], 2⟩ [(7, 2)] = [(1, -3)] ∧
    ((5 : Int) - 2 = 3 ∧ (-3 : Int) ≠ 3) := by
  refine ⟨?_, ?_, by decide⟩ <;> decide

/-- C2 (amended): on identical posting sets and a non-empty query, the
PostgreSQL backing's `return_matches` is the memory backing's result with
every offset difference negated (memory yields reference − query, PostgreSQL
yields query − reference); and in the memory backing every stored posting
whose hash carries a query offset contributes the match
`(reference_id, reference_offset − query_offset)`. -/
theorem c2_amended_sign_flip (db : MemoryDatabase) (st : PGState)
    (hashes : List (Nat × Int)) (hfp : st.fingerprints = db.fingerprints)
    (hne : hashes ≠ []) :
    st.return_matches hashes =
      (db.return_matches hashes).map (fun p => (p.1, -p.2)) ∧
    ∀ h sid off qoff, (h, sid, off) ∈ db.fingerprints →
      pyDictLookup hashes h = some qoff →
      (sid, off - qoff) ∈ db.return_matches hashes := by
  constructor
  · unfold PGState.return_matches MemoryDatabase.return_matches
    rw [if_neg hne, hfp, List.map_filterMap]
    apply List.filterMap_congr
    intro t _
    cases hl : pyDictLookup hashes t.1 <;> simp [hl]
  · intro h sid off qoff hmem hlook
    unfold MemoryDatabase.return_matches
    exact List.mem_filterMap.mpr ⟨(h, sid, off), hmem, by simp [hlook]⟩

/-- C2 witness: the amended sign-flip relation applied to a concrete store
holding the posting `(7, 1, 5)` and the concrete query `[(7, 2)]`. -/
theorem c2_amended_sign_flip_witness :
    (PGState.return_matches ⟨[], [(7, 1, 5)], 2⟩ [(7, 2)] =
      (MemoryDatabase.return_matches ⟨[], [(7, 1, 5)], 2⟩ [(7, 2)]).map
        (fun p => (p.1, -p.2))) ∧
    ∀ h sid off qoff, (h, sid, off) ∈ [((7 : Nat), (1 : Nat), (5 : Int))] →
      pyDictLookup [(7, 2)] h = some qoff →
      (sid, off - qoff) ∈ MemoryDatabase.return_matches ⟨[], [(7, 1, 5)], 2⟩ [(7, 2)] :=
  c2_amended_sign_flip ⟨[], [(7, 1, 5)], 2⟩ ⟨[], [(7, 1, 5)], 2⟩ [(7, 2)]
    (by decide) (by decide)

/-- C3, counterexample: the memory backing's `insert` appends unconditionally,
so inserting the same posting twice does NOT leave the store equal to
inserting it once, and the store then holds two identical postings. -/
theorem c3_memory_not_idempotent_counterexample :
    ((MemoryDatabase.init.insert 7 1 0).insert 7 1 0) ≠
      MemoryDatabase.init.insert 7 1 0 ∧
    ((MemoryDatabase.init.insert 7 1 0).insert 7 1 0).fingerprints =
      [(7, 1, 0), (7, 1, 0)] := by
  refine ⟨?_, ?_⟩ <;> decide

/-- C3 (amended): posting insertion is idempotent on the unique triple for
the PostgreSQL backing (`ON CONFLICT DO NOTHING`), whose posting table stays
duplicate-free and contains the inserted triple; the memory backing appends
unconditionally and can hold identical duplicates. -/
theorem c3_amended_pg_idempotent (st : PGState) (h sid : Nat) (off : Int)
    (hnd : st.fingerprints.Nodup) :
    (st.insert h sid off).insert h sid off = st.insert h sid off ∧
    ((st.insert h sid off).fingerprints).Nodup ∧
    (h, sid, off) ∈ (st.insert h sid off).fingerprints := by
  unfold PGState.insert
  by_cases hm : (h, sid, off) ∈ st.fingerprints
  · simp [hm, hnd]
  · simp [hm, hnd, List.nodup_append]

/-- C3 witness: idempotence of the PostgreSQL insert at a concrete store
already holding a different posting. -/
theorem c3_amended_pg_idempotent_witness :
    ((PGState.insert ⟨[], [(9, 2, 4)], 3⟩ 7 1 0).insert 7 1 0 =
      PGState.insert ⟨[], [(9, 2, 4)], 3⟩ 7 1 0) ∧
    ((PGState.insert ⟨[], [(9, 2, 4)], 3⟩ 7 1 0).fingerprints).Nodup ∧
    (7, 1, 0) ∈ (PGState.insert ⟨[], [(9, 2, 4)], 3⟩ 7 1 0).fingerprints :=
  c3_amended_pg_idempotent ⟨[], [(9, 2, 4)], 3⟩ 7 1 0 (by decide)

/-- C4, counterexample: neither backing's `insert_song` enforces name
uniqueness — inserting the name "a" twice stores two references both named
"a" (with distinct ids), in the memory backing and in the PostgreSQL songs
table alike (whose schema has UNIQUE only on `song_id`). -/
theorem c4_duplicate_names_counterexample :
    ((((MemoryDatabase.init.insert_song "a" "x").2.insert_song "a" "x").2.songs.map
        (fun p => p.2.song_name)) = ["a", "a"]) ∧
    ¬ ((((MemoryDatabase.init.insert_song "a" "x").2.insert_song "a" "x").2.songs.map
        (fun p => p.2.song_name)).Nodup) ∧
    ((((PGState.insert_song ⟨[], [], 1⟩ "a" "x").2.insert_song "a" "x").2.songs.map
        PGSongRow.song_name) = ["a", "a"]) := by
  refine ⟨?_, ?_, ?_⟩ <;> decide

/-- C4 (amended): `insert_song` does not enforce name uniqueness, but
`reference_id` is fresh, unique and stable: the new id is `next_song_id`,
no existing reference carries it, existing rows are untouched, and the
id-uniqueness invariant is preserved. -/
theorem c4_amended_ids_fresh_and_stable (db : MemoryDatabase) (n s : String)
    (hb : ∀ p ∈ db.songs, p.1 < db.next_song_id)
    (hnd : (db.songs.map Prod.fst).Nodup) :
    (db.insert_song n s).1 = db.next_song_id ∧
    (db.insert_song n s).2.songs = db.songs ++ [(db.next_song_id, ⟨n, s, false⟩)] ∧
    (∀ p ∈ db.songs, p.1 ≠ (db.insert_song n s).1) ∧
    (∀ p ∈ (db.insert_song n s).2.songs, p.1 < (db.insert_song n s).2.next_song_id) ∧
    ((db.insert_song n s).2.songs.map Prod.fst).Nodup := by
  refine ⟨rfl, rfl, ?_, ?_, ?_⟩
  · intro p hp
    exact Nat.ne_of_lt (hb p hp)
  · intro p hp
    rcases List.mem_append.mp hp with hold | hnewm
    · exact Nat.lt_succ_of_lt (hb p hold)
    · simp only [List.mem_singleton] at hnewm
      subst hnewm
      exact Nat.lt_succ_self _
  · unfold MemoryDatabase.insert_song
    simp only [List.map_append, List.map_cons, List.map_nil]
    refine List.Nodup.append hnd (List.nodup_singleton _) ?_
    intro a ha hb2
    simp only [List.mem_singleton] at hb2
    subst hb2
    rcases List.mem_map.mp ha with ⟨p, hp, hpa⟩
    exact absurd hpa (Nat.ne_of_lt (hb p hp))

/-- C4 witness: freshness and stability of ids at a concrete store holding
one reference. -/
theorem c4_amended_ids_witness :
    ((MemoryDatabase.mk [(1, ⟨"a", "x", true⟩)] [] 2).insert_song "b" "y").1 = 2 ∧
    ((MemoryDatabase.mk [(1, ⟨"a", "x", true⟩)] [] 2).insert_song "b" "y").2.songs =
      [(1, ⟨"a", "x", true⟩)] ++ [(2, ⟨"b", "y", false⟩)] ∧
    (∀ p ∈ [((1 : Nat), Song.mk "a" "x" true)],
      p.1 ≠ ((MemoryDatabase.mk [(1, ⟨"a", "x", true⟩)] [] 2).insert_song "b" "y").1) ∧
    (∀ p ∈ ((MemoryDatabase.mk [(1, ⟨"a", "x", true⟩)] [] 2).insert_song "b" "y").2.songs,
      p.1 < ((MemoryDatabase.mk [(1, ⟨"a", "x", true⟩)] [] 2).insert_song "b" "y").2.next_song_id) ∧
    (((MemoryDatabase.mk [(1, ⟨"a", "x", true⟩)] [] 2).insert_song "b" "y").2.songs.map
      Prod.fst).Nodup :=
  c4_amended_ids_fresh_and_stable (MemoryDatabase.mk [(1, ⟨"a", "x", true⟩)] [] 2)
    "b" "y" (by decide) (by decide)

/-- C5: evaluating `FingerprintEngine.clear_database` at the failing input —
a memory store holding one fingerprinted reference (with one posting) and one
metadata entry.  The loop `for song_id, _ in songs:` unpacks a three-key dict
row into two variables, so the call raises `ValueError` instead of clearing
the library: the counts cannot all become zero because the operation never
completes (and the memory backing lacks the `delete_unfingerprinted_song`
method the loop body would call next). -/
theorem c5_clear_database_failing_input :
    clearDatabaseMem
      ⟨[(1, ⟨"a", "x", true⟩)], [(7, 1, 0)], 2⟩
      [("a", ⟨[("game", PyVal.pystr "g")], "f.wav"⟩)] =
      Except.error "ValueError: too many values to unpack" := by
  rfl

/-- C6, counterexample: with the global debounce 5 and detections of song "A"
at t=0, song "B" at t=1 and song "A" again at t=2, the recognizer publishes
all three — the second "A" event is emitted only 2 seconds after the previous
emission of "A", inside the 5-second debounce window, because a name change
resets `last_published_song` and the different-name branch publishes
unconditionally. -/
theorem c6_aba_counterexample :
    runPublishes 5
      [(0, ⟨"A", 1, "A", 0, 1, []⟩), (1, ⟨"B", 1, "B", 0, 1, []⟩),
       (2, ⟨"A", 1, "A", 0, 1, []⟩)]
      MQTTState.init =
      [(0, "A"), (1, "B"), (2, "A")] ∧ ((2 : ℚ) - 0 < 5) := by
  refine ⟨?_, by norm_num⟩
  decide

/-- C6 (amended): a detection is suppressed by the debounce check exactly
when its name equals the LAST PUBLISHED name and the time since that name's
recorded last emission is below the effective debounce; in particular a
detection whose name differs from the last published name is always emitted
immediately (but emission of a name is NOT prevented merely by a recent
earlier emission of that name when a different name was published in
between). -/
theorem c6_amended_debounce_iff (g now : ℚ) (d : Detection) (st : MQTTState) :
    (shouldPublish g now d st).1 = false ↔
      (st.last_published_song = some d.song_name ∧
       now - ((st.last_event_time.lookup d.song_name).getD 0) <
         effectiveDebounce g d.metadata) := by
  simp only [shouldPublish]
  split_ifs with hc hc2
  · exact iff_of_false (by simp) (fun hx => hc hx.1)
  · exact iff_of_false (by simp) (fun hx => absurd hc2 (not_le_of_lt hx.2))
  · exact iff_of_true rfl ⟨not_not.mp hc, lt_of_not_ge hc2⟩

/-- C8, counterexample: importing a fingerprint file whose `song_name` "a"
already exists in the store with `--force` given still yields a skip and
leaves the store untouched — `main` parses `--force` but never passes it to
`import_fingerprint_file` (its help text reads "not yet implemented"). -/
theorem c8_force_counterexample :
    mainProcessFile true
      { song_name := some "a", source_file := none, metadata := [],
        file_sha1 := none, fingerprints := [(some 7, some 0)] }
      { db := ⟨[(1, ⟨"a", "x", true⟩)], [(7, 1, 0)], 2⟩, meta := [] } =
      (ImportResult.skipped,
       { db := ⟨[(1, ⟨"a", "x", true⟩)], [(7, 1, 0)], 2⟩, meta := [] }) := by
  rfl

/-- Folding the memory backing's `insert` over a list of postings appends
them in order. -/
theorem foldl_insert_fingerprints (db : MemoryDatabase) (l : List (Nat × Nat × Int)) :
    l.foldl (fun d t => d.insert t.1 t.2.1 t.2.2) db =
      { db with fingerprints := db.fingerprints ++ l } := by
  induction l generalizing db with
  | nil => simp
  | cons t rest ih =>
    rw [List.foldl_cons, ih]
    simp [MemoryDatabase.insert]

/-- C10 (confirmed, given a nonnegative global `debounce_duration`): whatever
value the metadata holds under `debounce_seconds` — missing, `None`, bool,
int, float, string, or any other object — the effective debounce of the
publish check is a nonnegative rational: the coerced value clamped below at
0.0 when `float()` succeeds, the global `debounce_duration` when it raises,
and the global (which the `metadata.get` default routes through the same
clamp) when the field is missing; the check is total, never propagating an
exception. -/
theorem c10_effective_debounce_safe (g : ℚ) (md : List (String × PyVal))
    (hg : 0 ≤ g) :
    0 ≤ effectiveDebounce g md ∧
    (∀ v, md.lookup "debounce_seconds" = some v →
      effectiveDebounce g md =
        (match pyFloat v with
         | some q => max 0 q
         | none => g)) ∧
    (md.lookup "debounce_seconds" = none → effectiveDebounce g md = g) := by
  unfold effectiveDebounce
  refine ⟨?_, ?_, ?_⟩
  · cases hl : md.lookup "debounce_seconds" with
    | none =>
      simp only [hl, Option.getD_none, pyFloat]
      exact le_max_left 0 g
    | some v =>
      simp only [hl, Option.getD_some]
      cases hf : pyFloat v with
      | none => simpa using hg
      | some q => simp [le_max_left]
  · intro v hv
    simp only [hv, Option.getD_some]
  · intro hv
    simp only [hv, Option.getD_none, pyFloat]
    exact max_eq_right hg

/-- C10 witness: global debounce 5 with a malformed string value, evaluated
concretely. -/
theorem c10_effective_debounce_safe_witness :
    0 ≤ effectiveDebounce 5 [("debounce_seconds", PyVal.pystr "abc")] ∧
    (∀ v, ([("debounce_seconds", PyVal.pystr "abc")] :
        List (String × PyVal)).lookup "debounce_seconds" = some v →
      effectiveDebounce 5 [("debounce_seconds", PyVal.pystr "abc")] =
        (match pyFloat v with
         | some q => max 0 q
         | none => 5)) ∧
    (([("debounce_seconds", PyVal.pystr "abc")] :
        List (String × PyVal)).lookup "debounce_seconds" = none →
      effectiveDebounce 5 [("debounce_seconds", PyVal.pystr "abc")] = 5) :=
  c10_effective_debounce_safe 5 [("debounce_seconds", PyVal.pystr "abc")] (by norm_num)

/-- C8 (amended): when the file's `song_name` is present and non-empty, the
fingerprint list is non-empty and no fingerprinted reference of that name
exists, the import — with or without `--force`, which is parsed but never
used — inserts the reference with the file's digest (forty zeros when
missing), inserts exactly the `{hash, offset}` pairs with both fields
present, marks the reference fingerprinted, and upserts the metadata only
when the metadata object is non-empty. -/
theorem c8_amended_import (force : Bool) (data : FingerprintFile)
    (st : EngineState) (n : String)
    (hn : data.song_name = some n) (hne : n ≠ "")
    (hfp : data.fingerprints ≠ [])
    (hnew : (engineGetSongs st.db).any (fun p => p.2 = n) = false)
    (hb : ∀ p ∈ st.db.songs, p.1 < st.db.next_song_id) :
    mainProcessFile force data st =
      (ImportResult.success data.fingerprints.length,
       { db := { songs := st.db.songs ++ [(st.db.next_song_id,
                    ⟨n, data.file_sha1.getD zeros40, true⟩)],
                 fingerprints := st.db.fingerprints ++
                   validPostings data.fingerprints st.db.next_song_id,
                 next_song_id := st.db.next_song_id + 1 },
         meta := if data.metadata = [] then st.meta
                 else upsertMeta st.meta n ⟨data.metadata, data.source_file.getD ""⟩ }) := by
  unfold mainProcessFile importFingerprintFile
  rw [hn]
  simp only [hne, if_false, hfp, hnew, Bool.false_eq_true, if_neg]
  simp only [MemoryDatabase.insert_song, foldl_insert_fingerprints,
    MemoryDatabase.set_song_fingerprinted, List.map_append, List.map_cons,
    List.map_nil, if_pos]
  have hmap : st.db.songs.map
      (fun p => if p.1 = st.db.next_song_id
        then (p.1, { p.2 with fingerprinted := true }) else p) = st.db.songs := by
    conv_rhs => rw [← List.map_id st.db.songs]
    refine List.map_congr_left ?_
    intro p hp
    rw [if_neg (Nat.ne_of_lt (hb p hp))]
    rfl
  rw [hmap]

/-- C8 witness: a concrete import of a new reference "b" (one valid posting,
one entry missing its offset, non-empty metadata) into a store already
holding reference "a". -/
theorem c8_amended_import_witness :
    mainProcessFile false
      { song_name := some "b", source_file := some "b.wav",
        metadata := [("game", PyVal.pystr "g")],
        file_sha1 := some "ff", fingerprints := [(some 7, some 3), (some 8, none)] }
      { db := ⟨[(1, ⟨"a", "x", true⟩)], [(5, 1, 0)], 2⟩, meta := [] } =
      (ImportResult.success 2,
       { db := { songs := [(1, ⟨"a", "x", true⟩)] ++ [(2, ⟨"b", "ff", true⟩)],
                 fingerprints := [(5, 1, 0)] ++ validPostings [(some 7, some 3), (some 8, none)] 2,
                 next_song_id := 3 },
         meta := if ([(("game" : String), PyVal.pystr "g")] = []) then []
                 else upsertMeta [] "b" ⟨[("game", PyVal.pystr "g")], "b.wav"⟩ }) :=
  c8_amended_import false
    { song_name := some "b", source_file := some "b.wav",
      metadata := [("game", PyVal.pystr "g")],
      file_sha1 := some "ff", fingerprints := [(some 7, some 3), (some 8, none)] }
    { db := ⟨[(1, ⟨"a", "x", true⟩)], [(5, 1, 0)], 2⟩, meta := [] }
    "b" rfl (by decide) (by decide) (by decide) (by decide)

/-- C1: the code reports the RAW matched-hash count as confidence and gates
detections on it directly, not on the normalized `min(score/50, 1.0)` the
claim (and the `--threshold` help text of listen.py) prescribes.  Failing
input: a window whose match aligns a single hash, with
`confidence_threshold = 0.5`: the engine reports confidence `1` and the
recognizer emits a detection (`1 ≥ 0.5`), while the claimed normalized
confidence is `min(1/50, 1) = 0.02 < 0.5`, which forbids a detection. -/
theorem c1_confidence_raw_count_failing_input :
    recognizeResult [] (some ⟨"alarm", 1, 0⟩) =
      some { className := "alarm", song_name := "alarm", confidence := 1,
             offset := 0, hashes_matched_in_input := 1, metadata := [] } ∧
    detectionsOfMatch (1 / 2) (recognizeResult [] (some ⟨"alarm", 1, 0⟩)) =
      [{ className := "alarm", confidence := 1, song_name := "alarm",
         offset := 0, hashes_matched := 1, metadata := [] }] ∧
    specConfidence 1 = 1 / 50 ∧
    ¬ ((1 : ℚ) / 2 ≤ specConfidence 1) := by
  have h1 : recognizeResult [] (some ⟨"alarm", 1, 0⟩) =
      some { className := "alarm", song_name := "alarm", confidence := 1,
             offset := 0, hashes_matched_in_input := 1, metadata := [] } := rfl
  refine ⟨h1, ?_, by norm_num [specConfidence], by norm_num [specConfidence]⟩
  rw [h1]
  norm_num [detectionsOfMatch, mkDetection]

/-- A window holding a single zero sample has RMS zero. -/
theorem rms_single_zero : rms [0] = 0 := by
  simp [rms, rmsSq]

/-- On the all-zero single-sample window the code's energy is the sentinel
`-100`. -/
theorem calculateEnergyDb_single_zero : calculateEnergyDb [0] = -100 := by
  unfold calculateEnergyDb
  rw [rms_single_zero, if_neg]
  norm_num

/-- C7, counterexample: on a silent window (all zeros) the code's
`_calculate_energy_db` returns the sentinel `-100.0` (its `rms > 1e-10` guard
fails), whereas the claimed formula `20·log10(max(rms, 1e-10))` evaluates to
`20·log10(1e-10) = -200`: the claimed energy expression and the code disagree
at (and below) the cutoff. -/
theorem c7_energy_formula_counterexample :
    calculateEnergyDb [0] = -100 ∧ specEnergyDb [0] = -200 ∧
    calculateEnergyDb [0] ≠ specEnergyDb [0] := by
  have h2 : specEnergyDb [0] = -200 := by
    unfold specEnergyDb
    rw [rms_single_zero, max_eq_right (by norm_num : (0:ℝ) ≤ 1 / 10 ^ 10)]
    have he : ((1 : ℝ) / 10 ^ 10) = ((10 : ℝ) ^ (10 : ℕ))⁻¹ := by norm_num
    rw [he, Real.logb_inv, Real.logb_pow, Real.logb_self_eq_one (by norm_num)]
    norm_num
  refine ⟨calculateEnergyDb_single_zero, h2, ?_⟩
  rw [calculateEnergyDb_single_zero, h2]
  norm_num

/-- C7 (amended): the window energy is `20·log10(rms)` when `rms > 1e-10` and
the sentinel `-100.0` otherwise; whenever that energy is below
`energy_threshold_db` on a full buffer, `process_chunk` increments the
skipped-silent counter, returns no detections, and never invokes the
recognition pipeline (the result is oracle-independent by construction). -/
theorem c7_amended_energy_gate (c : RecognizerConfig)
    (recognize : List ℚ → Option EngineMatch) (st : StreamState) (chunk : List ℚ)
    (hfull : ¬ ((extendBuffer c st chunk).length < windowSize c))
    (hquiet : calculateEnergyDb (takeLast (windowSize c) (extendBuffer c st chunk)) <
      (c.energyThresholdDb : ℝ)) :
    processChunk c recognize st chunk =
      { state := { ringBuffer := extendBuffer c st chunk,
                   total_chunks := st.total_chunks + 1,
                   processed_chunks := st.processed_chunks,
                   skipped_silent_chunks := st.skipped_silent_chunks + 1,
                   total_detections := st.total_detections },
        detections := [], invokedRecognition := false } := by
  unfold processChunk
  split_ifs
  rfl

/-- Window size of the 1 Hz, one-second-window test configuration. -/
theorem windowSize_test1 : windowSize ⟨1, 1, 1, 1 / 2, 5, -40⟩ = 1 := by
  norm_num [windowSize, pyInt, Int.toNat_ofNat]

/-- Buffer size of the 1 Hz, one-second-window test configuration. -/
theorem bufferSize_test1 : bufferSize ⟨1, 1, 1, 1 / 2, 5, -40⟩ = 2 := by
  have h2 : Int.toNat 2 = 2 := by decide
  norm_num [bufferSize, pyInt, h2]

/-- C7 witness: a trivial configuration (1 Hz sample rate, one-sample window)
fed one zero sample: the window is silent, so the chunk is counted as skipped
and the oracle is never consulted. -/
theorem c7_amended_energy_gate_witness :
    processChunk ⟨1, 1, 1, 1 / 2, 5, -40⟩ (fun _ => none) StreamState.init [0] =
      { state := { ringBuffer := extendBuffer ⟨1, 1, 1, 1 / 2, 5, -40⟩ StreamState.init [0],
                   total_chunks := 1, processed_chunks := 0,
                   skipped_silent_chunks := 1, total_detections := 0 },
        detections := [], invokedRecognition := false } :=
  c7_amended_energy_gate ⟨1, 1, 1, 1 / 2, 5, -40⟩ (fun _ => none) StreamState.init [0]
    (by
      simp only [extendBuffer, bufferSize_test1, windowSize_test1, StreamState.init]
      decide)
    (by
      have harg : takeLast (windowSize ⟨1, 1, 1, 1 / 2, 5, -40⟩)
          (extendBuffer ⟨1, 1, 1, 1 / 2, 5, -40⟩ StreamState.init [0]) = [0] := by
        simp only [extendBuffer, bufferSize_test1, windowSize_test1, StreamState.init]
        rfl
      rw [harg, calculateEnergyDb_single_zero]
      norm_num)

/-- The ring buffer of the state after `process_chunk` is always the extended
buffer (the last `buffer_size` samples of the old buffer plus the chunk),
whatever branch is taken. -/
theorem processChunk_state_ringBuffer (c : RecognizerConfig)
    (recognize : List ℚ → Option EngineMatch) (st : StreamState) (chunk : List ℚ) :
    (processChunk c recognize st chunk).state.ringBuffer = extendBuffer c st chunk := by
  unfold processChunk
  split_ifs <;> rfl

/-- When the extended buffer is still shorter than `window_size`,
`process_chunk` returns no detections and performs no recognition. -/
theorem processChunk_short (c : RecognizerConfig)
    (recognize : List ℚ → Option EngineMatch) (st : StreamState) (chunk : List ℚ)
    (hlt : (extendBuffer c st chunk).length < windowSize c) :
    (processChunk c recognize st chunk).detections = [] ∧
    (processChunk c recognize st chunk).invokedRecognition = false := by
  unfold processChunk
  split_ifs
  exact ⟨rfl, rfl⟩

/-- C9 (confirmed, for configurations whose `window_duration · sample_rate`
is integral — true of the defaults): after any `process_chunk` call the ring
buffer holds the last `buffer_size` samples (oldest evicted first), its
length never exceeds `(window_duration + hop_duration) · sample_rate`, and
whenever it holds fewer than `window_duration · sample_rate` samples the call
returned no detections and never invoked recognition. -/
theorem c9_buffer_invariant (c : RecognizerConfig)
    (recognize : List ℚ → Option EngineMatch) (st : StreamState) (chunk : List ℚ)
    (hw : 0 ≤ c.windowDuration) (hh : 0 ≤ c.hopDuration)
    (hint : ((windowSize c : ℚ)) = c.windowDuration * c.sampleRate) :
    (processChunk c recognize st chunk).state.ringBuffer =
      takeLast (bufferSize c) (st.ringBuffer ++ chunk) ∧
    (((processChunk c recognize st chunk).state.ringBuffer.length : ℚ)) ≤
      (c.windowDuration + c.hopDuration) * c.sampleRate ∧
    ((((processChunk c recognize st chunk).state.ringBuffer.length : ℚ)) <
        c.windowDuration * c.sampleRate →
      (processChunk c recognize st chunk).detections = [] ∧
      (processChunk c recognize st chunk).invokedRecognition = false) := by
  have hrb := processChunk_state_ringBuffer c recognize st chunk
  have hnn : 0 ≤ (c.windowDuration + c.hopDuration) * (c.sampleRate : ℚ) :=
    mul_nonneg (add_nonneg hw hh) (by positivity)
  refine ⟨hrb, ?_, ?_⟩
  · rw [hrb]
    have hlen : (takeLast (bufferSize c) (st.ringBuffer ++ chunk)).length ≤ bufferSize c := by
      unfold takeLast
      rw [List.length_drop]
      omega
    have hq : ((bufferSize c : ℚ)) ≤ (c.windowDuration + c.hopDuration) * c.sampleRate := by
      unfold bufferSize pyInt
      rw [if_pos hnn]
      have h0 : (0 : ℤ) ≤ ⌊(c.windowDuration + c.hopDuration) * (c.sampleRate : ℚ)⌋ :=
        Int.floor_nonneg.mpr hnn
      have h2 : ((⌊(c.windowDuration + c.hopDuration) * (c.sampleRate : ℚ)⌋.toNat : ℤ) : ℚ) ≤
          (c.windowDuration + c.hopDuration) * (c.sampleRate : ℚ) := by
        rw [Int.toNat_of_nonneg h0]
        exact Int.floor_le _
      exact_mod_cast h2
    calc ((takeLast (bufferSize c) (st.ringBuffer ++ chunk)).length : ℚ)
        ≤ (bufferSize c : ℚ) := by exact_mod_cast hlen
      _ ≤ _ := hq
  · intro hlt
    rw [hrb] at hlt
    rw [← hint] at hlt
    have hlt2 : (takeLast (bufferSize c) (st.ringBuffer ++ chunk)).length < windowSize c := by
      exact_mod_cast hlt
    exact processChunk_short c recognize st chunk hlt2

/-- C9 witness: a 1 Hz configuration with a 2-second window and 1-second hop
(integral products), one zero-sample chunk into a fresh recognizer. -/
theorem c9_buffer_invariant_witness :
    ((processChunk ⟨1, 2, 1, 1 / 2, 5, -40⟩ (fun _ => none) StreamState.init [0]).state.ringBuffer =
      takeLast (bufferSize ⟨1, 2, 1, 1 / 2, 5, -40⟩) (StreamState.init.ringBuffer ++ [0])) ∧
    (((processChunk ⟨1, 2, 1, 1 / 2, 5, -40⟩ (fun _ => none) StreamState.init [0]).state.ringBuffer.length : ℚ)) ≤
      (2 + 1) * 1 ∧
    ((((processChunk ⟨1, 2, 1, 1 / 2, 5, -40⟩ (fun _ => none) StreamState.init [0]).state.ringBuffer.length : ℚ)) <
        2 * 1 →
      (processChunk ⟨1, 2, 1, 1 / 2, 5, -40⟩ (fun _ => none) StreamState.init [0]).detections = [] ∧
      (processChunk ⟨1, 2, 1, 1 / 2, 5, -40⟩ (fun _ => none) StreamState.init [0]).invokedRecognition = false) := by
  have h := c9_buffer_invariant ⟨1, 2, 1, 1 / 2, 5, -40⟩ (fun _ => none) StreamState.init [0]
    (by norm_num) (by norm_num)
    (by
      have h2 : Int.toNat 2 = 2 := by decide
      norm_num [windowSize, pyInt, h2])
  simpa using h
